import Mathlib

/-
  Shallow embedding of the interaction core of AutomatonBuilderGUI:
  src/NodeWrapper.ts and src/TokenWrapper.ts, together with the shared
  StateManager fields those handlers read and write.  Positions are Konva
  diagram coordinates, modelled as exact rationals.  External collaborator
  calls (operation log, start-node tracking, tentative-transition record)
  are modelled as explicit event fields of the world state, so a theorem
  can speak about whether a handler performed a given call.
-/

namespace AutomatonBuilder

/-- Two dimensional vector of diagram coordinates (Konva Vector2d). -/
structure Vector2d where
  x : ℚ
  y : ℚ
deriving DecidableEq, Repr

/-- JavaScript Math.round: the floor of q + 1/2, which rounds a half toward
positive infinity, exactly as the JS builtin does. -/
def jsRound (q : ℚ) : ℤ := ⌊q + 1/2⌋

/-- The tool modes dispatched on by the event handlers (Tool.ts). -/
inductive Tool
  | Select
  | States
  | Transitions
deriving DecidableEq, Repr

/-- The children of the Konva group of a node, identified by role; the error
overlay elements carry the names errorIcon and errorText used by the
selector in setErrorState. -/
inductive KonvaElem
  | background
  | acceptCircle
  | nodeLabel
  | errorIcon
  | errorText
deriving DecidableEq, Repr

/-- The color scheme consulted by NodeWrapper (StateManager.colorScheme);
its concrete values live outside the two source files, so they are carried
as abstract data. -/
structure ColorScheme where
  nodeFill : String
  nodeStrokeColor : String
  selectedNodeStrokeColor : String
  nodeAcceptStrokeColor : String
  nodeLabelColor : String
  nodeDragDropShadowColor : String
  newConnectionGlowColor : String
deriving DecidableEq, Repr

/-- The radius of the node circle in the UI (NodeWrapper.NodeRadius). -/
def NodeRadius : ℚ := 30

/-- The stroke width of the circle around unselected nodes
(NodeWrapper.StrokeWidth). -/
def StrokeWidth : ℚ := 2

/-- The stroke width of the circle around selected nodes
(NodeWrapper.SelectedStrokeWidth). -/
def SelectedStrokeWidth : ℚ := 4

/-- The identity part of a NodeWrapper, which exists before the Konva view
objects are created: id, label, accept flag and the remembered snapped
position. -/
structure NodeData where
  id : String
  labelText : String
  isAcceptNode : Bool
  lastSnappedPos : Vector2d
deriving DecidableEq, Repr

/-- The NodeWrapper constructor: the id argument defaults to a freshly
generated uuid (passed here as genId), the label is stored, the accept flag
is false and lastSnappedPos starts at the origin. -/
def NodeWrapper.construct (label : String) (idArg : Option String)
    (genId : String) : NodeData :=
  { id := idArg.getD genId
    labelText := label
    isAcceptNode := false
    lastSnappedPos := ⟨0, 0⟩ }

/-- The full state of a NodeWrapper once createKonvaObjects has run: the
identity data plus the view state of the Konva group (position, stroke and
fill of the background circle, shadow flag, children).  The dragStopped
flag records that stopDrag was issued on the group. -/
structure NodeState where
  id : String
  labelText : String
  isAcceptNode : Bool
  pos : Vector2d
  lastPos : Vector2d
  lastSnappedPos : Vector2d
  shadowEnabled : Bool
  shadowColor : String
  dragStopped : Bool
  fill : String
  stroke : String
  strokeWidth : ℚ
  acceptVisible : Bool
  groupChildren : List KonvaElem
deriving DecidableEq, Repr

/-- NodeWrapper.createKonvaObjects: builds the Konva group at (x, y) with the
background circle, the accept indicator circle and the label text.  The
source leaves lastPos undefined until onDragStart runs; since onDragStart
always assigns it before any use, it is initialised to the position here. -/
def NodeData.createKonvaObjects (cs : ColorScheme) (x y : ℚ)
    (d : NodeData) : NodeState :=
  { id := d.id
    labelText := d.labelText
    isAcceptNode := d.isAcceptNode
    pos := ⟨x, y⟩
    lastPos := ⟨x, y⟩
    lastSnappedPos := d.lastSnappedPos
    shadowEnabled := false
    shadowColor := ""
    dragStopped := false
    fill := cs.nodeFill
    stroke := cs.nodeStrokeColor
    strokeWidth := StrokeWidth
    acceptVisible := d.isAcceptNode
    groupChildren := [KonvaElem.background, KonvaElem.acceptCircle,
                      KonvaElem.nodeLabel] }

/-- NodeWrapper.select: selected stroke color and width on the background. -/
def NodeState.select (cs : ColorScheme) (n : NodeState) : NodeState :=
  { n with stroke := cs.selectedNodeStrokeColor
           strokeWidth := SelectedStrokeWidth }

/-- NodeWrapper.deselect: default stroke color and width on the background. -/
def NodeState.deselect (cs : ColorScheme) (n : NodeState) : NodeState :=
  { n with stroke := cs.nodeStrokeColor
           strokeWidth := StrokeWidth }

/-- NodeWrapper.enableDragDropShadow: turns the drop shadow on (the offset,
opacity and blur parameters are pure view styling and are not tracked). -/
def NodeState.enableDragDropShadow (cs : ColorScheme) (n : NodeState) :
    NodeState :=
  { n with shadowColor := cs.nodeDragDropShadowColor
           shadowEnabled := true }

/-- NodeWrapper.enableNewConnectionGlow: turns the candidate-target glow on. -/
def NodeState.enableNewConnectionGlow (cs : ColorScheme) (n : NodeState) :
    NodeState :=
  { n with shadowColor := cs.newConnectionGlowColor
           shadowEnabled := true }

/-- NodeWrapper.disableShadowEffects: shadowEnabled(false) only. -/
def NodeState.disableShadowEffects (n : NodeState) : NodeState :=
  { n with shadowEnabled := false }

/-- NodeWrapper.setPosition. -/
def NodeState.setPosition (p : Vector2d) (n : NodeState) : NodeState :=
  { n with pos := p }

/-- The grid cell size used by snapToGrid. -/
def gridCellSize : ℚ := 50

/-- One coordinate of the snap computation in NodeWrapper.snapToGrid:
Math.round(coord / gridCellSize) * gridCellSize. -/
def snapCoord (q : ℚ) : ℚ := (jsRound (q / gridCellSize) : ℚ) * gridCellSize

/-- Both coordinates of the snap computation of NodeWrapper.snapToGrid. -/
def snapVec (p : Vector2d) : Vector2d := ⟨snapCoord p.x, snapCoord p.y⟩

/-- NodeWrapper.snapToGrid: computes the snapped coordinates from the current
group position, moves the group there with setPosition, and returns the
snapped position.  The path recomputation of incident transitions and the
layer redraw are view-layer collaborator effects outside these two files. -/
def NodeState.snapToGrid (n : NodeState) : NodeState × Vector2d :=
  let nodePos := n.pos
  let snappedX := snapCoord nodePos.x
  let snappedY := snapCoord nodePos.y
  (n.setPosition ⟨snappedX, snappedY⟩, ⟨snappedX, snappedY⟩)

/-- NodeWrapper.setErrorState: first destroys every child named errorIcon or
errorText, then either paints the error styling and adds one fresh icon and
one fresh glyph, or restores the default fill and stroke. -/
def NodeState.setErrorState (cs : ColorScheme) (isError : Bool)
    (n : NodeState) : NodeState :=
  let cleaned := n.groupChildren.filter
    (fun e => !(e == KonvaElem.errorIcon || e == KonvaElem.errorText))
  if isError then
    { n with fill := "rgb(254, 226, 225)"
             stroke := "rgb(220, 38, 37)"
             strokeWidth := 4
             groupChildren := cleaned ++ [KonvaElem.errorIcon,
                                          KonvaElem.errorText] }
  else
    { n with fill := cs.nodeFill
             stroke := cs.nodeStrokeColor
             strokeWidth := StrokeWidth
             groupChildren := cleaned }

/-- Serializable form of a node (SerializableState in StateManager.ts). -/
structure SerializableState where
  id : String
  x : ℚ
  y : ℚ
  label : String
deriving DecidableEq, Repr

/-- Serializable form of a token (SerializableToken in StateManager.ts). -/
structure SerializableToken where
  id : String
  symbol : String
deriving DecidableEq, Repr

/-- NodeWrapper.toSerializable: the id, the group position and the label. -/
def NodeState.toSerializable (n : NodeState) : SerializableState :=
  { id := n.id, x := n.pos.x, y := n.pos.y, label := n.labelText }

/-- The TokenWrapper class: a stable id and a mutable symbol. -/
structure TokenWrapper where
  id : String
  symbol : String
deriving DecidableEq, Repr

/-- The TokenWrapper constructor: both arguments are optional; a missing id
is replaced by a fresh uuid (genId) and a missing symbol by the empty
string. -/
def TokenWrapper.construct (symbol : Option String) (idArg : Option String)
    (genId : String) : TokenWrapper :=
  { id := idArg.getD genId, symbol := symbol.getD "" }

/-- TokenWrapper.toSerializable. -/
def TokenWrapper.toSerializable (t : TokenWrapper) : SerializableToken :=
  { id := t.id, symbol := t.symbol }

/-- Modelled from the spec: deserialization (the StateManager loading code is
not among the given source files) reconstructs a node by calling the
constructor with the serialized label and id and creating the Konva view at
the serialized position. -/
def deserializeNode (cs : ColorScheme) (genId : String)
    (s : SerializableState) : NodeState :=
  (NodeWrapper.construct s.label (some s.id) genId).createKonvaObjects
    cs s.x s.y

/-- Modelled from the spec: token deserialization reconstructs a token by
calling the constructor with the serialized symbol and id. -/
def deserializeToken (genId : String) (s : SerializableToken) : TokenWrapper :=
  TokenWrapper.construct (some s.symbol) (some s.id) genId

/-- A member of StateManager.selectedObjects: either a node (identified by
its index in the world) or some other selectable object such as a
transition. -/
inductive SelObj
  | node (i : Nat)
  | other (tag : Nat)
deriving DecidableEq, Repr

/-- The node index of a selected object, when it is a node (the instanceof
NodeWrapper test). -/
def SelObj.nodeId : SelObj → Option Nat
  | SelObj.node i => some i
  | SelObj.other _ => none

/-- The mouse event data consulted by the handlers: the shift key, the page
coordinates and the movement delta. -/
structure MouseEvt where
  shiftKey : Bool
  pageX : ℚ
  pageY : ℚ
  movementX : ℚ
  movementY : ℚ
deriving DecidableEq, Repr

/-- The shared state the NodeWrapper handlers interact with: the current
tool, the snap flag, the selection list, every node state, the tentative
transition record, and event logs recording the collaborator calls
startDragStatesOperation, completeDragStatesOperation,
updateStartNodePosition and endTentativeTransition. -/
structure World where
  colorScheme : ColorScheme
  currentTool : Tool
  snapToGridEnabled : Bool
  selected : List SelObj
  nodes : Nat → NodeState
  tentativeInProgress : Bool
  tentativeSource : Option Nat
  tentativeTarget : Option Nat
  tentativeHead : Vector2d
  startDragOps : List Vector2d
  completeDragOps : List Vector2d
  startNodeUpdates : Nat
  endedTentatives : Nat

/-- Replaces the state of one node in the world. -/
def World.updateNode (w : World) (i : Nat) (f : NodeState → NodeState) :
    World :=
  { w with nodes := fun j => if j = i then f (w.nodes j) else w.nodes j }

/-- Modelled from the spec: StateManager.selectObject adds the object to the
selection set when it is not yet a member (idempotent otherwise) and applies
the selected visual state, which for a node is NodeWrapper.select. -/
def selectObject (o : SelObj) (w : World) : World :=
  let w1 :=
    match o with
    | SelObj.node i => w.updateNode i (NodeState.select w.colorScheme)
    | SelObj.other _ => w
  if o ∈ w1.selected then w1
  else { w1 with selected := w1.selected ++ [o] }

/-- Applies the unselected visual state to every node of the list. -/
def deselectVisuals (w : World) (l : List SelObj) : World :=
  l.foldl
    (fun acc o =>
      match o with
      | SelObj.node i => acc.updateNode i (NodeState.deselect acc.colorScheme)
      | SelObj.other _ => acc) w

/-- Modelled from the spec: StateManager.deselectAllObjects empties the
selection set and applies the unselected visual state to every member,
which for a node is NodeWrapper.deselect. -/
def deselectAllObjects (w : World) : World :=
  { deselectVisuals w w.selected with selected := [] }

/-- StateManager.startDragStatesOperation, an external operation-log
collaborator: the call is recorded with its argument. -/
def startDragStatesOperation (p : Vector2d) (w : World) : World :=
  { w with startDragOps := w.startDragOps ++ [p] }

/-- StateManager.completeDragStatesOperation, an external operation-log
collaborator: the call is recorded with its argument. -/
def completeDragStatesOperation (p : Vector2d) (w : World) : World :=
  { w with completeDragOps := w.completeDragOps ++ [p] }

/-- StateManager.updateStartNodePosition, an external collaborator: the call
is counted. -/
def updateStartNodePosition (w : World) : World :=
  { w with startNodeUpdates := w.startNodeUpdates + 1 }

/-- Modelled from the spec: StateManager.startTentativeTransition creates the
tentative transition record with this node as its source and no target
yet. -/
def startTentativeTransition (src : Nat) (w : World) : World :=
  { w with tentativeInProgress := true
           tentativeSource := some src
           tentativeTarget := none }

/-- Modelled from the spec: StateManager.updateTentativeTransitionHead moves
the free endpoint of the tentative transition to the given page
coordinates. -/
def updateTentativeTransitionHead (x y : ℚ) (w : World) : World :=
  { w with tentativeHead := ⟨x, y⟩ }

/-- Modelled from the spec: StateManager.endTentativeTransition finalizes the
gesture (creating a transition when a target is set, a collaborator effect
counted here) and clears the tentative record unconditionally. -/
def endTentativeTransition (w : World) : World :=
  { w with tentativeInProgress := false
           tentativeSource := none
           tentativeTarget := none
           endedTentatives := w.endedTentatives + 1 }

/-- NodeWrapper.onClick: in Select mode, clear the selection unless shift is
held, then select this node. -/
def onClick (self : Nat) (ev : MouseEvt) (w : World) : World :=
  if w.currentTool = Tool.Select then
    let w1 := if !ev.shiftKey then deselectAllObjects w else w
    selectObject (SelObj.node self) w1
  else w

/-- NodeWrapper.onMouseEnter: in Transitions mode with a tentative transition
in progress, this node becomes the tracked target and gets the glow. -/
def onMouseEnter (self : Nat) (w : World) : World :=
  if w.currentTool = Tool.Transitions ∧ w.tentativeInProgress then
    let w1 := { w with tentativeTarget := some self }
    w1.updateNode self (NodeState.enableNewConnectionGlow w1.colorScheme)
  else w

/-- NodeWrapper.onMouseLeave: in Transitions mode, only when a tentative
transition is in progress and this node is the tracked target, the target is
cleared and the shadow effects are disabled. -/
def onMouseLeave (self : Nat) (w : World) : World :=
  if w.currentTool = Tool.Transitions then
    if w.tentativeInProgress ∧ w.tentativeTarget = some self then
      let w1 := { w with tentativeTarget := none }
      w1.updateNode self NodeState.disableShadowEffects
    else w
  else w

/-- The forEach loop of the Select branch of onDragStart: puts the drag
shadow on every node of the list. -/
def applyDragShadows (w : World) (l : List SelObj) : World :=
  l.foldl
    (fun acc o =>
      match o with
      | SelObj.node i =>
          acc.updateNode i (NodeState.enableDragDropShadow acc.colorScheme)
      | SelObj.other _ => acc) w

/-- NodeWrapper.onDragStart: records lastPos, then branches on the tool.
States: stopDrag on the group.  Transitions: start a tentative transition
from this node.  Select: possibly collapse the selection to this node,
select it, put the drag shadow on every selected node and open the drag
operation with lastPos. -/
def onDragStart (self : Nat) (ev : MouseEvt) (w : World) : World :=
  let w0 := w.updateNode self (fun n => { n with lastPos := n.pos })
  if w0.currentTool = Tool.States then
    w0.updateNode self (fun n => { n with dragStopped := true })
  else if w0.currentTool = Tool.Transitions then
    startTentativeTransition self w0
  else if w0.currentTool = Tool.Select then
    let w1 := if !ev.shiftKey ∧ w0.selected.length = 1 then
                deselectAllObjects w0
              else w0
    let w2 := selectObject (SelObj.node self) w1
    let w3 := applyDragShadows w2 w2.selected
    startDragStatesOperation ((w3.nodes self).lastPos) w3
  else w0

/-- Models the native drag of the scene graph: between two handler runs the
pointer has moved the dragged group to an arbitrary new position. -/
def nativeDragTo (self : Nat) (p : Vector2d) (w : World) : World :=
  w.updateNode self (fun n => { n with pos := p })

/-- NodeWrapper.onDragMove: in Transitions mode the group position is reset
to lastPos and the tentative transition head follows the page coordinates;
in Select mode every other selected node is shifted by the movement delta
(the move notifications fired to observers are view-layer effects). -/
def onDragMove (self : Nat) (ev : MouseEvt) (w : World) : World :=
  if w.currentTool = Tool.Transitions then
    let w1 := w.updateNode self (fun n => { n with pos := n.lastPos })
    updateTentativeTransitionHead ev.pageX ev.pageY w1
  else if w.currentTool = Tool.Select then
    let allOtherSelected := w.selected.filter (fun o => o ≠ SelObj.node self)
    allOtherSelected.foldl
      (fun acc o =>
        match o with
        | SelObj.node i =>
            acc.updateNode i (fun n =>
              { n with pos := ⟨n.pos.x + ev.movementX,
                               n.pos.y + ev.movementY⟩ })
        | SelObj.other _ => acc) w
  else w

/-- The epsilon of the snapped-position comparison in onDragEnd. -/
def dragEps : ℚ := 1 / 100000

/-- The forEach loop of the snap branch of onDragEnd: snaps each node of the
list in turn, remembering the snapped position of the dragged node itself in
the accumulator. -/
def snapAllAcc (self : Nat) (acc : World × Vector2d) :
    List Nat → World × Vector2d
  | [] => acc
  | i :: rest =>
      let step := (acc.1.nodes i).snapToGrid
      snapAllAcc self
        (acc.1.updateNode i (fun _ => step.1),
         if i = self then step.2 else acc.2) rest

/-- The forEach loop of the plain Select branch of onDragEnd: removes the
shadow effects from every node of the list. -/
def removeDragShadows (w : World) (l : List SelObj) : World :=
  l.foldl
    (fun acc o =>
      match o with
      | SelObj.node i => acc.updateNode i NodeState.disableShadowEffects
      | SelObj.other _ => acc) w

/-- NodeWrapper.onDragEnd, branch for branch: States does nothing; Select
with snapping enabled snaps every selected node, notifies the start-node
collaborator, and commits the move only when the snapped position differs
from lastSnappedPos by more than the epsilon on some axis; Transitions ends
the tentative transition; Select without snapping removes the shadows from
all selected nodes and always commits. -/
def onDragEnd (self : Nat) (w : World) : World :=
  if w.currentTool = Tool.States then w
  else if w.currentTool = Tool.Select ∧ w.snapToGridEnabled then
    let nodeIds := w.selected.filterMap SelObj.nodeId
    let res := snapAllAcc self (w, ⟨0, 0⟩) nodeIds
    let w1 := updateStartNodePosition res.1
    let snappedPos := res.2
    let lastSnapped := (w1.nodes self).lastSnappedPos
    if dragEps < |lastSnapped.x - snappedPos.x| ∨
       dragEps < |lastSnapped.y - snappedPos.y| then
      let w2 := w1.updateNode self (fun n =>
        { n with lastSnappedPos := snappedPos })
      completeDragStatesOperation ((w2.nodes self).pos) w2
    else w1
  else if w.currentTool = Tool.Transitions then
    endTentativeTransition w
  else if w.currentTool = Tool.Select then
    let w1 := removeDragShadows w w.selected
    completeDragStatesOperation ((w1.nodes self).pos) w1
  else w

/-- One drag-move event of a gesture: the position the native scene-graph
drag has put the group at when the handler fires, and the mouse event the
handler receives. -/
structure DragMoveEvt where
  rawPos : Vector2d
  ev : MouseEvt
deriving DecidableEq, Repr

/-- One drag-move event processed in full: the native drag moves the group,
then the onDragMove handler runs. -/
def dragMoveStep (self : Nat) (w : World) (e : DragMoveEvt) : World :=
  onDragMove self e.ev (nativeDragTo self e.rawPos w)

/-- A sequence of drag-move events processed in order. -/
def processDragMoves (self : Nat) (l : List DragMoveEvt) (w : World) : World :=
  l.foldl (dragMoveStep self) w

/-- A concrete color scheme used by the concrete test states below. -/
def testColorScheme : ColorScheme :=
  { nodeFill := "white"
    nodeStrokeColor := "black"
    selectedNodeStrokeColor := "blue"
    nodeAcceptStrokeColor := "black"
    nodeLabelColor := "black"
    nodeDragDropShadowColor := "gray"
    newConnectionGlowColor := "green" }

/-- A freshly constructed node with its Konva objects placed at (x, y). -/
def nodeAt (x y : ℚ) : NodeState :=
  (NodeWrapper.construct "state" none "uuid-0").createKonvaObjects
    testColorScheme x y

/-- A concrete world: Select tool, snapping enabled, node 0 selected and
carrying the drag shadow, positioned at (73, 124). -/
def dragWorld : World :=
  { colorScheme := testColorScheme
    currentTool := Tool.Select
    snapToGridEnabled := true
    selected := [SelObj.node 0]
    nodes := fun _ => { nodeAt 73 124 with shadowEnabled := true }
    tentativeInProgress := false
    tentativeSource := none
    tentativeTarget := none
    tentativeHead := ⟨0, 0⟩
    startDragOps := []
    completeDragOps := []
    startNodeUpdates := 0
    endedTentatives := 0 }

/-- A concrete world: Transitions tool with a tentative transition from node
1 in progress whose tracked target is node 0 (which carries the glow). -/
def hoverWorld : World :=
  { colorScheme := testColorScheme
    currentTool := Tool.Transitions
    snapToGridEnabled := false
    selected := []
    nodes := fun _ => { nodeAt 10 20 with shadowEnabled := true }
    tentativeInProgress := true
    tentativeSource := some 1
    tentativeTarget := some 0
    tentativeHead := ⟨0, 0⟩
    startDragOps := []
    completeDragOps := []
    startNodeUpdates := 0
    endedTentatives := 0 }

/-- The number of children of a Konva group carrying the given role name. -/
def countChildren (e : KonvaElem) (l : List KonvaElem) : Nat :=
  l.countP (fun x => x == e)

/-- The dragWorld with snapping disabled. -/
def noSnapWorld : World := { dragWorld with snapToGridEnabled := false }

/-- The dragWorld with the States tool active. -/
def statesWorld : World := { dragWorld with currentTool := Tool.States }

/-- The dragWorld with the Transitions tool active. -/
def transWorld : World := { dragWorld with currentTool := Tool.Transitions }

/-- A world whose selected node 0 already sits on the grid point (100, 100)
while its lastSnappedPos still holds the initial origin value. -/
def gridWorld : World :=
  { dragWorld with nodes := fun _ => { nodeAt 100 100 with
      shadowEnabled := true } }

/-- A world whose selected node 0 sits on the grid point (100, 100) and whose
lastSnappedPos records that same point (a previous drag settled there). -/
def gridSettledWorld : World :=
  { dragWorld with nodes := fun _ => { nodeAt 100 100 with
      lastSnappedPos := ⟨100, 100⟩ } }

/-- The Select-with-snapping branch of onDragEnd, named so its pieces can be
reasoned about separately. -/
def snapBranchResult (self : Nat) (w : World) : World :=
  let nodeIds := w.selected.filterMap SelObj.nodeId
  let res := snapAllAcc self (w, ⟨0, 0⟩) nodeIds
  let w1 := updateStartNodePosition res.1
  let snappedPos := res.2
  let lastSnapped := (w1.nodes self).lastSnappedPos
  if dragEps < |lastSnapped.x - snappedPos.x| ∨
     dragEps < |lastSnapped.y - snappedPos.y| then
    let w2 := w1.updateNode self (fun n =>
      { n with lastSnappedPos := snappedPos })
    completeDragStatesOperation ((w2.nodes self).pos) w2
  else w1

/-- The Select-without-snapping branch of onDragEnd. -/
def plainSelectEndResult (self : Nat) (w : World) : World :=
  let w1 := removeDragShadows w w.selected
  completeDragStatesOperation ((w1.nodes self).pos) w1

@[simp] theorem nodes_updateNode (w : World) (i : Nat)
    (f : NodeState → NodeState) (j : Nat) :
    (w.updateNode i f).nodes j = if j = i then f (w.nodes j) else w.nodes j :=
  rfl

@[simp] theorem currentTool_updateNode (w : World) (i : Nat)
    (f : NodeState → NodeState) :
    (w.updateNode i f).currentTool = w.currentTool := rfl

@[simp] theorem selected_updateNode (w : World) (i : Nat)
    (f : NodeState → NodeState) :
    (w.updateNode i f).selected = w.selected := rfl

@[simp] theorem colorScheme_updateNode (w : World) (i : Nat)
    (f : NodeState → NodeState) :
    (w.updateNode i f).colorScheme = w.colorScheme := rfl

@[simp] theorem completeDragOps_updateNode (w : World) (i : Nat)
    (f : NodeState → NodeState) :
    (w.updateNode i f).completeDragOps = w.completeDragOps := rfl

@[simp] theorem startNodeUpdates_updateNode (w : World) (i : Nat)
    (f : NodeState → NodeState) :
    (w.updateNode i f).startNodeUpdates = w.startNodeUpdates := rfl

@[simp] theorem snapToGridEnabled_updateNode (w : World) (i : Nat)
    (f : NodeState → NodeState) :
    (w.updateNode i f).snapToGridEnabled = w.snapToGridEnabled := rfl

@[simp] theorem tentativeInProgress_updateNode (w : World) (i : Nat)
    (f : NodeState → NodeState) :
    (w.updateNode i f).tentativeInProgress = w.tentativeInProgress := rfl

@[simp] theorem tentativeSource_updateNode (w : World) (i : Nat)
    (f : NodeState → NodeState) :
    (w.updateNode i f).tentativeSource = w.tentativeSource := rfl

@[simp] theorem tentativeTarget_updateNode (w : World) (i : Nat)
    (f : NodeState → NodeState) :
    (w.updateNode i f).tentativeTarget = w.tentativeTarget := rfl

@[simp] theorem tentativeHead_updateNode (w : World) (i : Nat)
    (f : NodeState → NodeState) :
    (w.updateNode i f).tentativeHead = w.tentativeHead := rfl

@[simp] theorem startDragOps_updateNode (w : World) (i : Nat)
    (f : NodeState → NodeState) :
    (w.updateNode i f).startDragOps = w.startDragOps := rfl

@[simp] theorem endedTentatives_updateNode (w : World) (i : Nat)
    (f : NodeState → NodeState) :
    (w.updateNode i f).endedTentatives = w.endedTentatives := rfl

@[simp] theorem snapToGrid_fst (n : NodeState) :
    (n.snapToGrid).1 = n.setPosition (snapVec n.pos) := rfl

@[simp] theorem snapToGrid_snd (n : NodeState) :
    (n.snapToGrid).2 = snapVec n.pos := rfl

@[simp] theorem pos_setPosition (n : NodeState) (p : Vector2d) :
    (n.setPosition p).pos = p := rfl

theorem jsRound_eq_round (q : ℚ) : jsRound q = round q := by
  rw [jsRound, round_eq]

theorem jsRound_intCast (k : ℤ) : jsRound (k : ℚ) = k := by
  rw [jsRound, add_comm, Int.floor_add_int]
  norm_num

theorem snapCoord_int (k : ℤ) : snapCoord ((k : ℚ) * 50) = (k : ℚ) * 50 := by
  rw [snapCoord, gridCellSize, mul_div_cancel_right₀ _ (by norm_num : (50:ℚ) ≠ 0),
    jsRound_intCast]

theorem snapCoord_idem (q : ℚ) : snapCoord (snapCoord q) = snapCoord q := by
  rw [snapCoord, gridCellSize]
  exact snapCoord_int _

theorem snapVec_idem (p : Vector2d) : snapVec (snapVec p) = snapVec p := by
  simp [snapVec, snapCoord_idem]

@[simp] theorem snapAllAcc_nil (self : Nat) (acc : World × Vector2d) :
    snapAllAcc self acc [] = acc := rfl

theorem snapAllAcc_cons (self : Nat) (w : World) (sp : Vector2d) (i : Nat)
    (rest : List Nat) :
    snapAllAcc self (w, sp) (i :: rest) =
      snapAllAcc self
        (w.updateNode i (fun _ => ((w.nodes i).snapToGrid).1),
         if i = self then ((w.nodes i).snapToGrid).2 else sp) rest := rfl

theorem snapAllAcc_fst_nodes (self : Nat) (l : List Nat) (w : World)
    (sp : Vector2d) (i : Nat) :
    (snapAllAcc self (w, sp) l).1.nodes i =
      if i ∈ l then (w.nodes i).setPosition (snapVec (w.nodes i).pos)
      else w.nodes i := by
  induction l generalizing w sp with
  | nil => simp
  | cons j rest ih =>
      rw [snapAllAcc_cons, ih]
      by_cases hij : i = j
      · subst hij
        by_cases hmem : i ∈ rest <;>
          simp [hmem, NodeState.setPosition, snapVec_idem]
      · by_cases hmem : i ∈ rest <;>
          simp [hmem, hij, Ne.symm hij, List.mem_cons]

theorem snapAllAcc_snd (self : Nat) (l : List Nat) (w : World)
    (sp : Vector2d) :
    (snapAllAcc self (w, sp) l).2 =
      if self ∈ l then snapVec ((w.nodes self).pos) else sp := by
  induction l generalizing w sp with
  | nil => simp
  | cons j rest ih =>
      rw [snapAllAcc_cons, ih]
      by_cases hjs : j = self
      · by_cases hmem : self ∈ rest <;>
          simp [hjs, hmem, NodeState.setPosition, snapVec_idem]
      · by_cases hmem : self ∈ rest <;>
          simp [hmem, hjs, Ne.symm hjs, List.mem_cons]

theorem snapAllAcc_fst_shared (self : Nat) (l : List Nat) (w : World)
    (sp : Vector2d) :
    ∃ f, (snapAllAcc self (w, sp) l).1 = { w with nodes := f } := by
  induction l generalizing w sp with
  | nil => exact ⟨w.nodes, rfl⟩
  | cons j rest ih =>
      rw [snapAllAcc_cons]
      obtain ⟨f, hf⟩ := ih (w.updateNode j (fun _ => ((w.nodes j).snapToGrid).1))
        (if j = self then ((w.nodes j).snapToGrid).2 else sp)
      exact ⟨f, by rw [hf]; rfl⟩

@[simp] theorem removeDragShadows_nil (w : World) :
    removeDragShadows w [] = w := rfl

theorem removeDragShadows_cons_node (w : World) (j : Nat) (rest : List SelObj) :
    removeDragShadows w (SelObj.node j :: rest) =
      removeDragShadows (w.updateNode j NodeState.disableShadowEffects) rest :=
  rfl

theorem removeDragShadows_cons_other (w : World) (t : Nat)
    (rest : List SelObj) :
    removeDragShadows w (SelObj.other t :: rest) = removeDragShadows w rest :=
  rfl

theorem removeDragShadows_nodes (l : List SelObj) (w : World) (i : Nat) :
    (removeDragShadows w l).nodes i =
      if SelObj.node i ∈ l then (w.nodes i).disableShadowEffects
      else w.nodes i := by
  induction l generalizing w with
  | nil => simp
  | cons o rest ih =>
      cases o with
      | node j =>
          rw [removeDragShadows_cons_node, ih]
          by_cases hij : i = j
          · subst hij
            by_cases hmem : SelObj.node i ∈ rest <;>
              simp [hmem, NodeState.disableShadowEffects]
          · by_cases hmem : SelObj.node i ∈ rest <;>
              simp [hmem, hij, List.mem_cons]
      | other t =>
          rw [removeDragShadows_cons_other, ih]
          simp [List.mem_cons]

theorem removeDragShadows_shared (l : List SelObj) (w : World) :
    ∃ f, removeDragShadows w l = { w with nodes := f } := by
  induction l generalizing w with
  | nil => exact ⟨w.nodes, rfl⟩
  | cons o rest ih =>
      cases o with
      | node j =>
          rw [removeDragShadows_cons_node]
          obtain ⟨f, hf⟩ := ih (w.updateNode j NodeState.disableShadowEffects)
          exact ⟨f, by rw [hf]; rfl⟩
      | other t =>
          rw [removeDragShadows_cons_other]
          exact ih w


theorem dragMoveStep_tool (self : Nat) (w : World) (e : DragMoveEvt)
    (h : w.currentTool = Tool.Transitions) :
    (dragMoveStep self w e).currentTool = Tool.Transitions := by
  simp [dragMoveStep, onDragMove, nativeDragTo, updateTentativeTransitionHead, h]

theorem dragMoveStep_pos (self : Nat) (w : World) (e : DragMoveEvt)
    (h : w.currentTool = Tool.Transitions) :
    ((dragMoveStep self w e).nodes self).pos = (w.nodes self).lastPos := by
  simp [dragMoveStep, onDragMove, nativeDragTo, updateTentativeTransitionHead, h]

theorem dragMoveStep_lastPos (self : Nat) (w : World) (e : DragMoveEvt)
    (h : w.currentTool = Tool.Transitions) :
    ((dragMoveStep self w e).nodes self).lastPos = (w.nodes self).lastPos := by
  simp [dragMoveStep, onDragMove, nativeDragTo, updateTentativeTransitionHead, h]

theorem dragMoveStep_head (self : Nat) (w : World) (e : DragMoveEvt)
    (h : w.currentTool = Tool.Transitions) :
    (dragMoveStep self w e).tentativeHead = ⟨e.ev.pageX, e.ev.pageY⟩ := by
  simp [dragMoveStep, onDragMove, nativeDragTo, updateTentativeTransitionHead, h]

theorem processDragMoves_cons (self : Nat) (e : DragMoveEvt)
    (rest : List DragMoveEvt) (w : World) :
    processDragMoves self (e :: rest) w =
      processDragMoves self rest (dragMoveStep self w e) := rfl

theorem processDragMoves_inv (self : Nat) (l : List DragMoveEvt) (w : World)
    (h : w.currentTool = Tool.Transitions) :
    (processDragMoves self l w).currentTool = Tool.Transitions
    ∧ ((processDragMoves self l w).nodes self).lastPos
        = (w.nodes self).lastPos
    ∧ ((processDragMoves self l w).nodes self).pos
        = (if l = [] then (w.nodes self).pos else (w.nodes self).lastPos) := by
  induction l generalizing w with
  | nil => exact ⟨h, rfl, by simp [processDragMoves]⟩
  | cons e rest ih =>
      obtain ⟨h1, h2, h3⟩ := ih (dragMoveStep self w e)
        (dragMoveStep_tool self w e h)
      rw [processDragMoves_cons]
      refine ⟨h1, ?_, ?_⟩
      · rw [h2, dragMoveStep_lastPos self w e h]
      · rw [h3]
        by_cases hrest : rest = [] <;>
          simp [hrest, dragMoveStep_pos self w e h,
            dragMoveStep_lastPos self w e h]

theorem processDragMoves_concat_head (self : Nat) (l : List DragMoveEvt)
    (e : DragMoveEvt) (w : World) (h : w.currentTool = Tool.Transitions) :
    (processDragMoves self (l ++ [e]) w).tentativeHead
      = ⟨e.ev.pageX, e.ev.pageY⟩ := by
  have hsplit : processDragMoves self (l ++ [e]) w
      = dragMoveStep self (processDragMoves self l w) e := by
    simp [processDragMoves, List.foldl_append]
  rw [hsplit,
    dragMoveStep_head self _ e (processDragMoves_inv self l w h).1]

theorem snapCoord_eq_int_mul (q : ℚ) :
    snapCoord q = (jsRound (q / 50) : ℚ) * 50 := rfl

theorem abs_int_mul_fifty (k : ℤ) : |(k : ℚ) * 50| = |(k : ℚ)| * 50 := by
  rw [abs_mul]
  norm_num

theorem dragEps_lt_abs_iff (k : ℤ) : dragEps < |(k : ℚ) * 50| ↔ k ≠ 0 := by
  rw [abs_int_mul_fifty]
  constructor
  · rintro h rfl
    norm_num [dragEps] at h
  · intro hk
    have h1 : (1 : ℚ) ≤ |(k : ℚ)| := by
      have := Int.one_le_abs hk
      calc (1 : ℚ) ≤ (|k| : ℤ) := by exact_mod_cast this
        _ = |(k : ℚ)| := by push_cast; ring
    calc dragEps < 50 := by norm_num [dragEps]
      _ ≤ |(k : ℚ)| * 50 := by nlinarith

theorem snapToGrid_gridpoint (n : NodeState) (a b : ℤ)
    (h : n.pos = ⟨(a : ℚ) * 50, (b : ℚ) * 50⟩) :
    n.snapToGrid = (n, n.pos) := by
  have hx : snapCoord n.pos.x = n.pos.x := by rw [h]; exact snapCoord_int a
  have hy : snapCoord n.pos.y = n.pos.y := by rw [h]; exact snapCoord_int b
  have hvec : (⟨snapCoord n.pos.x, snapCoord n.pos.y⟩ : Vector2d) = n.pos := by
    rw [hx, hy]
  simp [NodeState.snapToGrid, hvec, NodeState.setPosition]


theorem onDragEnd_states_eq (self : Nat) (w : World)
    (hTool : w.currentTool = Tool.States) :
    onDragEnd self w = w := by
  simp only [onDragEnd, hTool]
  rfl

theorem onDragEnd_snap_eq (self : Nat) (w : World)
    (hTool : w.currentTool = Tool.Select)
    (hSnap : w.snapToGridEnabled = true) :
    onDragEnd self w = snapBranchResult self w := by
  have h1 : ¬(w.currentTool = Tool.States) := by rw [hTool]; decide
  have h2 : w.currentTool = Tool.Select ∧ w.snapToGridEnabled = true :=
    ⟨hTool, hSnap⟩
  rw [onDragEnd, if_neg h1, if_pos h2]
  rfl

theorem onDragEnd_trans_eq (self : Nat) (w : World)
    (hTool : w.currentTool = Tool.Transitions) :
    onDragEnd self w = endTentativeTransition w := by
  have h1 : ¬(w.currentTool = Tool.States) := by rw [hTool]; decide
  have h2 : ¬(w.currentTool = Tool.Select ∧ w.snapToGridEnabled = true) := by
    rw [hTool]; rintro ⟨h, -⟩; cases h
  rw [onDragEnd, if_neg h1, if_neg h2, if_pos hTool]

theorem onDragEnd_plain_eq (self : Nat) (w : World)
    (hTool : w.currentTool = Tool.Select)
    (hSnap : w.snapToGridEnabled = false) :
    onDragEnd self w = plainSelectEndResult self w := by
  have h1 : ¬(w.currentTool = Tool.States) := by rw [hTool]; decide
  have h2 : ¬(w.currentTool = Tool.Select ∧ w.snapToGridEnabled = true) := by
    rw [hSnap]; rintro ⟨-, h⟩; cases h
  have h3 : ¬(w.currentTool = Tool.Transitions) := by rw [hTool]; decide
  rw [onDragEnd, if_neg h1, if_neg h2, if_neg h3, if_pos hTool]
  rfl

theorem nodeId_mem_filterMap (self : Nat) (l : List SelObj) :
    self ∈ l.filterMap SelObj.nodeId ↔ SelObj.node self ∈ l := by
  rw [List.mem_filterMap]
  constructor
  · rintro ⟨b, hb, he⟩
    cases b with
    | node i =>
        simp only [SelObj.nodeId, Option.some.injEq] at he
        rw [he] at hb
        exact hb
    | other t => simp [SelObj.nodeId] at he
  · intro h
    exact ⟨SelObj.node self, h, rfl⟩

theorem onDragEnd_snap_startNodeUpdates (self : Nat) (w : World)
    (hTool : w.currentTool = Tool.Select)
    (hSnap : w.snapToGridEnabled = true) :
    (onDragEnd self w).startNodeUpdates = w.startNodeUpdates + 1 := by
  rw [onDragEnd_snap_eq self w hTool hSnap]
  obtain ⟨f, hf⟩ := snapAllAcc_fst_shared self
    (w.selected.filterMap SelObj.nodeId) w ⟨0, 0⟩
  simp only [snapBranchResult, hf]
  split <;> simp [updateStartNodePosition, completeDragStatesOperation]

theorem onDragEnd_snap_shadow (self : Nat) (w : World) (i : Nat)
    (hTool : w.currentTool = Tool.Select)
    (hSnap : w.snapToGridEnabled = true) :
    ((onDragEnd self w).nodes i).shadowEnabled
      = ((w.nodes i)).shadowEnabled := by
  rw [onDragEnd_snap_eq self w hTool hSnap]
  simp only [snapBranchResult]
  split
  all_goals
    simp only [completeDragStatesOperation, updateStartNodePosition,
      nodes_updateNode, snapAllAcc_fst_nodes]
    split_ifs <;> simp [NodeState.setPosition]

theorem onDragEnd_plain_shadow_off (self : Nat) (w : World) (i : Nat)
    (hTool : w.currentTool = Tool.Select)
    (hSnap : w.snapToGridEnabled = false)
    (hmem : SelObj.node i ∈ w.selected) :
    ((onDragEnd self w).nodes i).shadowEnabled = false := by
  rw [onDragEnd_plain_eq self w hTool hSnap]
  simp [plainSelectEndResult, completeDragStatesOperation,
    removeDragShadows_nodes, hmem, NodeState.disableShadowEffects]

theorem onDragEnd_plain_startNodeUpdates (self : Nat) (w : World)
    (hTool : w.currentTool = Tool.Select)
    (hSnap : w.snapToGridEnabled = false) :
    (onDragEnd self w).startNodeUpdates = w.startNodeUpdates := by
  rw [onDragEnd_plain_eq self w hTool hSnap]
  obtain ⟨f, hf⟩ := removeDragShadows_shared w.selected w
  simp [plainSelectEndResult, completeDragStatesOperation, hf]


theorem snapAllAcc_snd_sel (self : Nat) (w : World)
    (hSel : SelObj.node self ∈ w.selected) :
    (snapAllAcc self (w, ⟨0, 0⟩) (w.selected.filterMap SelObj.nodeId)).2
      = snapVec ((w.nodes self).pos) := by
  rw [snapAllAcc_snd,
    if_pos ((nodeId_mem_filterMap self w.selected).mpr hSel)]

theorem w1_lastSnapped (self : Nat) (w : World)
    (hSel : SelObj.node self ∈ w.selected) :
    ((updateStartNodePosition
        (snapAllAcc self (w, ⟨0, 0⟩)
          (w.selected.filterMap SelObj.nodeId)).1).nodes self).lastSnappedPos
      = (w.nodes self).lastSnappedPos := by
  have hmem := (nodeId_mem_filterMap self w.selected).mpr hSel
  simp only [updateStartNodePosition, snapAllAcc_fst_nodes]
  simp [hmem, NodeState.setPosition]

theorem w1_pos_self (self : Nat) (w : World)
    (hSel : SelObj.node self ∈ w.selected) :
    ((updateStartNodePosition
        (snapAllAcc self (w, ⟨0, 0⟩)
          (w.selected.filterMap SelObj.nodeId)).1).nodes self).pos
      = snapVec ((w.nodes self).pos) := by
  have hmem := (nodeId_mem_filterMap self w.selected).mpr hSel
  simp only [updateStartNodePosition, snapAllAcc_fst_nodes]
  simp [hmem, NodeState.setPosition]

theorem onDragEnd_snap_pos_self (self : Nat) (w : World)
    (hTool : w.currentTool = Tool.Select)
    (hSnap : w.snapToGridEnabled = true)
    (hSel : SelObj.node self ∈ w.selected) :
    ((onDragEnd self w).nodes self).pos = snapVec ((w.nodes self).pos) := by
  rw [onDragEnd_snap_eq self w hTool hSnap]
  simp only [snapBranchResult]
  split
  · simp only [completeDragStatesOperation, nodes_updateNode,
      eq_self_iff_true, if_true]
    exact w1_pos_self self w hSel
  · exact w1_pos_self self w hSel

theorem onDragEnd_snap_nocommit (self : Nat) (w : World)
    (hTool : w.currentTool = Tool.Select)
    (hSnap : w.snapToGridEnabled = true)
    (hSel : SelObj.node self ∈ w.selected)
    (hsp : snapVec ((w.nodes self).pos) = (w.nodes self).lastSnappedPos) :
    (onDragEnd self w).completeDragOps = w.completeDragOps := by
  rw [onDragEnd_snap_eq self w hTool hSnap]
  obtain ⟨f, hf⟩ := snapAllAcc_fst_shared self
    (w.selected.filterMap SelObj.nodeId) w ⟨0, 0⟩
  simp only [snapBranchResult, snapAllAcc_snd_sel self w hSel,
    w1_lastSnapped self w hSel]
  rw [if_neg]
  · simp [updateStartNodePosition, hf]
  · rw [← hsp]
    simp only [sub_self, abs_zero]
    norm_num [dragEps]

theorem onDragEnd_snap_commit (self : Nat) (w : World)
    (hTool : w.currentTool = Tool.Select)
    (hSnap : w.snapToGridEnabled = true)
    (hSel : SelObj.node self ∈ w.selected)
    (hne : dragEps <
            |(w.nodes self).lastSnappedPos.x - (snapVec ((w.nodes self).pos)).x|
         ∨ dragEps <
            |(w.nodes self).lastSnappedPos.y -
              (snapVec ((w.nodes self).pos)).y|) :
    (onDragEnd self w).completeDragOps
      = w.completeDragOps ++ [snapVec ((w.nodes self).pos)] := by
  rw [onDragEnd_snap_eq self w hTool hSnap]
  obtain ⟨f, hf⟩ := snapAllAcc_fst_shared self
    (w.selected.filterMap SelObj.nodeId) w ⟨0, 0⟩
  simp only [snapBranchResult, snapAllAcc_snd_sel self w hSel,
    w1_lastSnapped self w hSel]
  rw [if_pos hne]
  simp only [completeDragStatesOperation, nodes_updateNode,
    eq_self_iff_true, if_true]
  rw [w1_pos_self self w hSel]
  simp only [completeDragOps_updateNode, updateStartNodePosition, hf]

theorem snapCoord_eq_zero_iff (q : ℚ) :
    snapCoord q = 0 ↔ jsRound (q / 50) = 0 := by
  rw [snapCoord_eq_int_mul, mul_eq_zero]
  norm_num [Int.cast_eq_zero]


theorem countP_cleaned (l : List KonvaElem) (e : KonvaElem)
    (he : e = KonvaElem.errorIcon ∨ e = KonvaElem.errorText) :
    (l.filter
        (fun x =>
          !(x == KonvaElem.errorIcon || x == KonvaElem.errorText))).countP
      (fun x => x == e) = 0 := by
  rw [List.countP_eq_zero]
  intro a ha
  obtain ⟨-, hpred⟩ := List.mem_filter.mp ha
  simp at hpred
  simp only [beq_iff_eq]
  rcases he with rfl | rfl
  · exact hpred.1
  · exact hpred.2

theorem setErrorState_count (cs : ColorScheme) (m : NodeState) (b : Bool)
    (e : KonvaElem)
    (he : e = KonvaElem.errorIcon ∨ e = KonvaElem.errorText) :
    countChildren e ((m.setErrorState cs b).groupChildren)
      = if b then 1 else 0 := by
  cases b with
  | false =>
      simp only [NodeState.setErrorState, Bool.false_eq_true, if_false,
        countChildren]
      exact countP_cleaned m.groupChildren e he
  | true =>
      simp only [NodeState.setErrorState, if_true, countChildren,
        List.countP_append]
      rw [countP_cleaned m.groupChildren e he]
      rcases he with rfl | rfl <;> rfl

/-- C1: for every node state, snapToGrid moves the node to
(round(x / 50) * 50, round(y / 50) * 50) and returns that position; in
particular (73, 124) snaps to (50, 100), (76, 126) snaps to (100, 150), and
the halfway coordinates 75 and 125 round up to 100 and 150. -/
theorem C1_snapToGrid_correct :
    (∀ n : NodeState,
        (n.snapToGrid).2 =
          ⟨(round (n.pos.x / 50) : ℚ) * 50, (round (n.pos.y / 50) : ℚ) * 50⟩
        ∧ ((n.snapToGrid).1).pos = (n.snapToGrid).2)
    ∧ ((nodeAt 73 124).snapToGrid).2 = ⟨50, 100⟩
    ∧ ((nodeAt 76 126).snapToGrid).2 = ⟨100, 150⟩
    ∧ snapCoord 75 = 100 ∧ snapCoord 125 = 150 := by
  refine ⟨fun n => ⟨?_, rfl⟩, ?_, ?_, ?_, ?_⟩
  · simp [snapVec, snapCoord, gridCellSize, jsRound_eq_round]
  · simp only [snapToGrid_snd, snapVec, nodeAt, NodeData.createKonvaObjects,
      NodeWrapper.construct]
    norm_num [snapCoord, jsRound, gridCellSize, Vector2d.mk.injEq]
  · simp only [snapToGrid_snd, snapVec, nodeAt, NodeData.createKonvaObjects,
      NodeWrapper.construct]
    norm_num [snapCoord, jsRound, gridCellSize, Vector2d.mk.injEq]
  · norm_num [snapCoord, jsRound, gridCellSize]
  · norm_num [snapCoord, jsRound, gridCellSize]

/-- C5: toSerializable is a pure projection of the wrapper state, and
deserializing the serialized form of any node or token (reconstructing with
the same id, label or symbol, and position) yields an object with the same
serialized form. -/
theorem C5_serialization_roundTrip :
    (∀ (cs : ColorScheme) (genId : String) (n : NodeState),
        (deserializeNode cs genId n.toSerializable).toSerializable
          = n.toSerializable)
    ∧ (∀ (genId : String) (t : TokenWrapper),
        (deserializeToken genId t.toSerializable).toSerializable
          = t.toSerializable) :=
  ⟨fun _ _ _ => rfl, fun _ _ => rfl⟩

/-- C6: setErrorState first destroys every existing error-overlay element,
so after any call the group holds exactly one icon and one glyph when the
flag is set and none otherwise; in particular two setErrorState(true) calls
in a row leave exactly one icon and one glyph pair. -/
theorem C6_errorOverlay_idempotent :
    ∀ (cs : ColorScheme) (n : NodeState) (b : Bool),
      countChildren KonvaElem.errorIcon
          ((n.setErrorState cs b).groupChildren) = (if b then 1 else 0)
      ∧ countChildren KonvaElem.errorText
          ((n.setErrorState cs b).groupChildren) = (if b then 1 else 0)
      ∧ countChildren KonvaElem.errorIcon
          (((n.setErrorState cs true).setErrorState cs true).groupChildren)
          = 1
      ∧ countChildren KonvaElem.errorText
          (((n.setErrorState cs true).setErrorState cs true).groupChildren)
          = 1 := by
  intro cs n b
  refine ⟨setErrorState_count cs n b _ (Or.inl rfl),
    setErrorState_count cs n b _ (Or.inr rfl), ?_, ?_⟩
  · simpa using
      setErrorState_count cs (n.setErrorState cs true) true _ (Or.inl rfl)
  · simpa using
      setErrorState_count cs (n.setErrorState cs true) true _ (Or.inr rfl)

/-- C8: a mouse-leave on a node in Transitions mode with a tentative
transition in progress clears the tracked target and removes its glow when
this node is the tracked target, and leaves the whole world unchanged when
it is not. -/
theorem C8_mouseLeave_guard (self : Nat) (w : World)
    (hTool : w.currentTool = Tool.Transitions)
    (hProg : w.tentativeInProgress = true) :
    (w.tentativeTarget = some self →
        (onMouseLeave self w).tentativeTarget = none
        ∧ ((onMouseLeave self w).nodes self).shadowEnabled = false)
    ∧ (w.tentativeTarget ≠ some self → onMouseLeave self w = w) := by
  constructor
  · intro htgt
    constructor <;>
      simp [onMouseLeave, hTool, hProg, htgt, NodeState.disableShadowEffects]
  · intro htgt
    simp [onMouseLeave, hTool, hProg, htgt]

/-- C8 witness at a concrete world whose tracked target is the leaving
node. -/
theorem C8_mouseLeave_guard_witness :
    (onMouseLeave 0 hoverWorld).tentativeTarget = none
    ∧ ((onMouseLeave 0 hoverWorld).nodes 0).shadowEnabled = false :=
  (C8_mouseLeave_guard 0 hoverWorld rfl rfl).1 rfl

/-- C9: a drag-start on a node while the States tool is active stops the
drag on the Konva group and leaves the selection, the tentative transition
record and the operation logs untouched, and the States branch of onDragEnd
performs no action at all. -/
theorem C9_states_dragStart_inert (self : Nat) (ev : MouseEvt) (w : World)
    (hTool : w.currentTool = Tool.States) :
    ((onDragStart self ev w).nodes self).dragStopped = true
    ∧ (onDragStart self ev w).selected = w.selected
    ∧ (onDragStart self ev w).tentativeInProgress = w.tentativeInProgress
    ∧ (onDragStart self ev w).tentativeSource = w.tentativeSource
    ∧ (onDragStart self ev w).tentativeTarget = w.tentativeTarget
    ∧ (onDragStart self ev w).startDragOps = w.startDragOps
    ∧ (onDragStart self ev w).completeDragOps = w.completeDragOps
    ∧ (onDragStart self ev w).startNodeUpdates = w.startNodeUpdates
    ∧ onDragEnd self w = w := by
  refine ⟨?_, ?_, ?_, ?_, ?_, ?_, ?_, ?_, onDragEnd_states_eq self w hTool⟩
  all_goals simp [onDragStart, hTool]

/-- C9 witness at a concrete world with the States tool active. -/
theorem C9_states_dragStart_inert_witness :
    ((onDragStart 0 ⟨false, 0, 0, 0, 0⟩ statesWorld).nodes 0).dragStopped
      = true
    ∧ (onDragStart 0 ⟨false, 0, 0, 0, 0⟩ statesWorld).selected
        = statesWorld.selected
    ∧ (onDragStart 0 ⟨false, 0, 0, 0, 0⟩ statesWorld).tentativeInProgress
        = statesWorld.tentativeInProgress
    ∧ (onDragStart 0 ⟨false, 0, 0, 0, 0⟩ statesWorld).tentativeSource
        = statesWorld.tentativeSource
    ∧ (onDragStart 0 ⟨false, 0, 0, 0, 0⟩ statesWorld).tentativeTarget
        = statesWorld.tentativeTarget
    ∧ (onDragStart 0 ⟨false, 0, 0, 0, 0⟩ statesWorld).startDragOps
        = statesWorld.startDragOps
    ∧ (onDragStart 0 ⟨false, 0, 0, 0, 0⟩ statesWorld).completeDragOps
        = statesWorld.completeDragOps
    ∧ (onDragStart 0 ⟨false, 0, 0, 0, 0⟩ statesWorld).startNodeUpdates
        = statesWorld.startNodeUpdates
    ∧ onDragEnd 0 statesWorld = statesWorld :=
  C9_states_dragStart_inert 0 ⟨false, 0, 0, 0, 0⟩ statesWorld rfl


/-- C7: after a drag-start on a node in Transitions mode, every drag-move
event resets the node to its drag-start position (the normal drag is
suppressed), while the tentative transition head follows the pointer page
coordinates of the latest event. -/
theorem C7_transitions_drag_frozen (self : Nat) (ev : MouseEvt) (w : World)
    (hTool : w.currentTool = Tool.Transitions) :
    (∀ l : List DragMoveEvt,
        ((processDragMoves self l (onDragStart self ev w)).nodes self).pos
          = (w.nodes self).pos)
    ∧ (∀ (l : List DragMoveEvt) (e : DragMoveEvt),
        (processDragMoves self (l ++ [e])
            (onDragStart self ev w)).tentativeHead
          = ⟨e.ev.pageX, e.ev.pageY⟩) := by
  have hstart : onDragStart self ev w
      = startTentativeTransition self
          (w.updateNode self (fun n => { n with lastPos := n.pos })) := by
    simp [onDragStart, hTool]
  have htool1 : (onDragStart self ev w).currentTool = Tool.Transitions := by
    rw [hstart]
    simpa [startTentativeTransition] using hTool
  have hlast : ((onDragStart self ev w).nodes self).lastPos
      = (w.nodes self).pos := by
    rw [hstart]
    simp [startTentativeTransition]
  have hpos0 : ((onDragStart self ev w).nodes self).pos
      = (w.nodes self).pos := by
    rw [hstart]
    simp [startTentativeTransition]
  constructor
  · intro l
    obtain ⟨-, -, h3⟩ := processDragMoves_inv self l _ htool1
    rw [h3]
    by_cases hl : l = [] <;> simp [hl, hpos0, hlast]
  · intro l e
    exact processDragMoves_concat_head self l e _ htool1

/-- C7 witness: a concrete one-event drag in Transitions mode leaves node 0
at its start position and moves the head to the event page coordinates. -/
theorem C7_transitions_drag_frozen_witness :
    ((processDragMoves 0 [⟨⟨7, 8⟩, ⟨false, 3, 4, 0, 0⟩⟩]
        (onDragStart 0 ⟨false, 0, 0, 0, 0⟩ transWorld)).nodes 0).pos
      = (transWorld.nodes 0).pos
    ∧ (processDragMoves 0 ([] ++ [⟨⟨7, 8⟩, ⟨false, 3, 4, 0, 0⟩⟩])
        (onDragStart 0 ⟨false, 0, 0, 0, 0⟩ transWorld)).tentativeHead
      = ⟨3, 4⟩ := by
  have h := C7_transitions_drag_frozen 0 ⟨false, 0, 0, 0, 0⟩ transWorld rfl
  exact ⟨h.1 _, h.2 [] _⟩

/-- C2 counterexample: in dragWorld the tool is Select, snapping is enabled,
node 0 is selected and carries the drag shadow, yet after onDragEnd the
shadow is still enabled: the snap-enabled branch of onDragEnd never calls
disableShadowEffects, so the claim fails at this input. -/
theorem C2_cex :
    dragWorld.currentTool = Tool.Select
    ∧ dragWorld.snapToGridEnabled = true
    ∧ SelObj.node 0 ∈ dragWorld.selected
    ∧ (dragWorld.nodes 0).shadowEnabled = true
    ∧ ((onDragEnd 0 dragWorld).nodes 0).shadowEnabled = true := by
  refine ⟨rfl, rfl, by decide, rfl, ?_⟩
  rw [onDragEnd_snap_shadow 0 dragWorld 0 rfl rfl]
  rfl

/-- C2 amended: a drag end in Select mode removes the drag shadow from every
selected node when snap to grid is disabled; when snap to grid is enabled
the shadow flag of every node is left unchanged. -/
theorem C2_amended (self i : Nat) (w : World)
    (hTool : w.currentTool = Tool.Select) :
    (w.snapToGridEnabled = false → SelObj.node i ∈ w.selected →
        ((onDragEnd self w).nodes i).shadowEnabled = false)
    ∧ (w.snapToGridEnabled = true →
        ((onDragEnd self w).nodes i).shadowEnabled
          = (w.nodes i).shadowEnabled) :=
  ⟨fun hSnap hmem => onDragEnd_plain_shadow_off self w i hTool hSnap hmem,
   fun hSnap => onDragEnd_snap_shadow self w i hTool hSnap⟩

/-- C2 amended witness at the two concrete worlds. -/
theorem C2_amended_witness :
    ((onDragEnd 0 noSnapWorld).nodes 0).shadowEnabled = false
    ∧ ((onDragEnd 0 dragWorld).nodes 0).shadowEnabled
        = (dragWorld.nodes 0).shadowEnabled :=
  ⟨(C2_amended 0 0 noSnapWorld rfl).1 rfl (by decide),
   (C2_amended 0 0 dragWorld rfl).2 rfl⟩

/-- C3 counterexample: with the Select tool and snapping disabled, onDragEnd
does not call updateStartNodePosition (the call counter stays 0), so the
claim that the collaborator is always notified fails at this input. -/
theorem C3_cex :
    noSnapWorld.currentTool = Tool.Select
    ∧ noSnapWorld.snapToGridEnabled = false
    ∧ noSnapWorld.startNodeUpdates = 0
    ∧ (onDragEnd 0 noSnapWorld).startNodeUpdates = 0 := by
  refine ⟨rfl, rfl, rfl, ?_⟩
  rw [onDragEnd_plain_startNodeUpdates 0 noSnapWorld rfl rfl]
  rfl

/-- C3 amended: a drag end in Select mode calls updateStartNodePosition
exactly once when snap to grid is enabled, and not at all when it is
disabled. -/
theorem C3_amended (self : Nat) (w : World)
    (hTool : w.currentTool = Tool.Select) :
    (w.snapToGridEnabled = true →
        (onDragEnd self w).startNodeUpdates = w.startNodeUpdates + 1)
    ∧ (w.snapToGridEnabled = false →
        (onDragEnd self w).startNodeUpdates = w.startNodeUpdates) :=
  ⟨fun hSnap => onDragEnd_snap_startNodeUpdates self w hTool hSnap,
   fun hSnap => onDragEnd_plain_startNodeUpdates self w hTool hSnap⟩

/-- C3 amended witness at the two concrete worlds. -/
theorem C3_amended_witness :
    (onDragEnd 0 dragWorld).startNodeUpdates = dragWorld.startNodeUpdates + 1
    ∧ (onDragEnd 0 noSnapWorld).startNodeUpdates
        = noSnapWorld.startNodeUpdates :=
  ⟨(C3_amended 0 dragWorld rfl).1 rfl, (C3_amended 0 noSnapWorld rfl).2 rfl⟩

/-- C4 counterexample: node 0 of gridWorld sits exactly on the grid point
(100, 100), snapToGrid returns that same position, the tool is Select and
snapping is enabled, yet onDragEnd still commits a move to the operation log
(completeDragStatesOperation is invoked) because lastSnappedPos holds the
initial origin rather than the current grid point. -/
theorem C4_cex :
    (gridWorld.nodes 0).pos = ⟨100, 100⟩
    ∧ ((gridWorld.nodes 0).snapToGrid).2 = (gridWorld.nodes 0).pos
    ∧ gridWorld.currentTool = Tool.Select
    ∧ gridWorld.snapToGridEnabled = true
    ∧ gridWorld.completeDragOps = []
    ∧ (onDragEnd 0 gridWorld).completeDragOps = [⟨100, 100⟩] := by
  have hsv : snapVec ((gridWorld.nodes 0).pos) = ⟨100, 100⟩ := by
    show snapVec (⟨100, 100⟩ : Vector2d) = ⟨100, 100⟩
    norm_num [snapVec, snapCoord, jsRound, gridCellSize, Vector2d.mk.injEq]
  refine ⟨rfl, by simpa using hsv, rfl, rfl, rfl, ?_⟩
  rw [onDragEnd_snap_commit 0 gridWorld rfl rfl (by decide) ?_]
  · rw [hsv]
    rfl
  · left
    rw [hsv]
    show dragEps < |(⟨0, 0⟩ : Vector2d).x - (100 : ℚ)|
    norm_num [dragEps]

/-- C4 amended: snapping a node already on a grid point returns the same
position, and a Select-mode drag end with snapping enabled at such a
position does not commit a move provided the position equals the node's
lastSnappedPos (the snapped position recorded by the previous committed
drag); the node also stays in place. -/
theorem C4_amended :
    (∀ (n : NodeState) (a b : ℤ), n.pos = ⟨(a : ℚ) * 50, (b : ℚ) * 50⟩ →
        n.snapToGrid = (n, n.pos))
    ∧ (∀ (self : Nat) (w : World) (a b : ℤ),
        w.currentTool = Tool.Select → w.snapToGridEnabled = true →
        SelObj.node self ∈ w.selected →
        (w.nodes self).pos = ⟨(a : ℚ) * 50, (b : ℚ) * 50⟩ →
        (w.nodes self).lastSnappedPos = (w.nodes self).pos →
        (onDragEnd self w).completeDragOps = w.completeDragOps
        ∧ ((onDragEnd self w).nodes self).pos = (w.nodes self).pos) := by
  constructor
  · exact fun n a b h => snapToGrid_gridpoint n a b h
  · intro self w a b hTool hSnap hSel hpos hlast
    have hsv : snapVec ((w.nodes self).pos) = (w.nodes self).pos := by
      have := congrArg Prod.snd (snapToGrid_gridpoint (w.nodes self) a b hpos)
      simpa using this
    refine ⟨onDragEnd_snap_nocommit self w hTool hSnap hSel
      (hsv.trans hlast.symm), ?_⟩
    rw [onDragEnd_snap_pos_self self w hTool hSnap hSel, hsv]

/-- C4 amended witness: a settled world whose node already in place on a
grid point neither commits a move nor moves. -/
theorem C4_amended_witness :
    (gridSettledWorld.nodes 0).pos = ⟨(2 : ℚ) * 50, (2 : ℚ) * 50⟩
    ∧ ((onDragEnd 0 gridSettledWorld).completeDragOps
        = gridSettledWorld.completeDragOps
       ∧ ((onDragEnd 0 gridSettledWorld).nodes 0).pos
          = (gridSettledWorld.nodes 0).pos) := by
  have hpos : (gridSettledWorld.nodes 0).pos
      = ⟨(2 : ℚ) * 50, (2 : ℚ) * 50⟩ := by
    show (⟨100, 100⟩ : Vector2d) = ⟨(2 : ℚ) * 50, (2 : ℚ) * 50⟩
    norm_num [Vector2d.mk.injEq]
  exact ⟨hpos,
    C4_amended.2 0 gridSettledWorld 2 2 rfl rfl (by decide) hpos rfl⟩

/-- C10: every NodeWrapper is constructed with lastSnappedPos at the origin,
and a first Select-mode drag end with snapping enabled (lastSnappedPos still
at the origin) is committed to the operation log exactly when the snapped
end position is not the origin, regardless of whether the node moved. -/
theorem C10_firstDrag_commit (label : String) (idArg : Option String)
    (genId : String) (self : Nat) (w : World)
    (hTool : w.currentTool = Tool.Select)
    (hSnap : w.snapToGridEnabled = true)
    (hSel : SelObj.node self ∈ w.selected)
    (hZero : (w.nodes self).lastSnappedPos = ⟨0, 0⟩) :
    (NodeWrapper.construct label idArg genId).lastSnappedPos = ⟨0, 0⟩
    ∧ (snapVec ((w.nodes self).pos) = ⟨0, 0⟩ →
        (onDragEnd self w).completeDragOps = w.completeDragOps)
    ∧ (snapVec ((w.nodes self).pos) ≠ ⟨0, 0⟩ →
        (onDragEnd self w).completeDragOps
          = w.completeDragOps ++ [snapVec ((w.nodes self).pos)]) := by
  refine ⟨rfl, fun h0 => onDragEnd_snap_nocommit self w hTool hSnap hSel
    (h0.trans hZero.symm), fun hne => ?_⟩
  apply onDragEnd_snap_commit self w hTool hSnap hSel
  rw [hZero]
  have hor : snapCoord ((w.nodes self).pos).x ≠ 0
      ∨ snapCoord ((w.nodes self).pos).y ≠ 0 := by
    by_contra hc
    push_neg at hc
    exact hne (by simp [snapVec, hc.1, hc.2])
  rcases hor with h | h
  · left
    have hrw : (⟨0, 0⟩ : Vector2d).x - (snapVec ((w.nodes self).pos)).x
        = -(snapCoord ((w.nodes self).pos).x) := by
      simp [snapVec]
    rw [hrw, abs_neg, snapCoord_eq_int_mul]
    refine (dragEps_lt_abs_iff _).mpr ?_
    intro hk
    apply h
    rw [snapCoord_eq_zero_iff]
    exact hk
  · right
    have hrw : (⟨0, 0⟩ : Vector2d).y - (snapVec ((w.nodes self).pos)).y
        = -(snapCoord ((w.nodes self).pos).y) := by
      simp [snapVec]
    rw [hrw, abs_neg, snapCoord_eq_int_mul]
    refine (dragEps_lt_abs_iff _).mpr ?_
    intro hk
    apply h
    rw [snapCoord_eq_zero_iff]
    exact hk

/-- C10 witness: in gridWorld (first drag, node at (100, 100)) the snapped
end position is not the origin and the move is committed. -/
theorem C10_firstDrag_commit_witness :
    (NodeWrapper.construct "state" none "uuid-0").lastSnappedPos = ⟨0, 0⟩
    ∧ (onDragEnd 0 gridWorld).completeDragOps
        = gridWorld.completeDragOps ++ [snapVec ((gridWorld.nodes 0).pos)] := by
  have h := C10_firstDrag_commit "state" none "uuid-0" 0 gridWorld rfl rfl
    (by decide) rfl
  refine ⟨h.1, h.2.2 ?_⟩
  show snapVec (⟨100, 100⟩ : Vector2d) ≠ ⟨0, 0⟩
  norm_num [snapVec, snapCoord, jsRound, gridCellSize, Vector2d.mk.injEq]


end AutomatonBuilder
